import Mathlib

/-!
Verification development for the Kurtosis enclave service network.

The definitions below are a shallow embedding of the Go sources:
  * core/server/api_container/server/service_network/service_network.go
    (the current coordinator: `ServiceNetwork`),
  * core/api_container/server/service_network/service_network_impl.go
    (the legacy coordinator: `ServiceNetworkImpl`),
  * container-engine-lib/lib/backend_impls/docker/docker_kurtosis_backend_user_service_functions.go
    (the Docker backend: `DockerKurtosisBackend`),
  * core/server/api_container/server/startosis_engine/kurtosis_instruction/add_service/add_services.go
    (the `add_services` plan instruction).

Maps held in Go `map` values are embedded as association lists; private IPs
are embedded as naturals drawn from the enclave IP pool; container/backend
side effects are embedded as explicit state.  Components of the repository
whose implementation files are not part of the source snapshot (the partition
topology package and the batch-start implementation behind the new
`ServiceNetwork` interface used by `add_services`) are modelled from the
specification and are marked as such in their doc comments.
-/

deriving instance DecidableEq for Except

namespace Kurtosis


/-- Service identifier: author-chosen string, unique within an enclave. -/
abbrev ServiceID := String

/-- Service GUID: system-generated key for backend resources. -/
abbrev ServiceGUID := String

/-- Partition identifier; the distinguished value is `"default"`. -/
abbrev PartitionID := String

/-- Private IP addresses, drawn from the enclave CIDR pool. -/
abbrev IP := Nat

/-- Lookup in an association list (Go `m[k]` with `found` flag). -/
def alookup {α β : Type} [DecidableEq α] (k : α) : List (α × β) → Option β
  | [] => none
  | (k', v) :: t => if k' = k then some v else alookup k t

/-- Deletion from an association list (Go `delete(m, k)`). -/
def aerase {α β : Type} [DecidableEq α] (k : α) : List (α × β) → List (α × β)
  | [] => []
  | (k', v) :: t => if k' = k then aerase k t else (k', v) :: aerase k t

/-- Insertion/overwrite in an association list (Go `m[k] = v`). -/
def ainsert {α β : Type} [DecidableEq α] (k : α) (v : β) (m : List (α × β)) :
    List (α × β) :=
  (k, v) :: aerase k m

/-- Connection property between two partitions (currently packet loss
percentage, embedded as a natural number of percent). -/
structure PartitionConnection where
  packetLossPercentage : Nat
deriving DecidableEq, Repr

/-- Modelled from the spec: the partition topology package
(`partition_topology` / `topology_types`) is not part of the source snapshot;
only its callers and its commutativity test (`TestCommutativeness`) are.  Per
the spec, partition-pair keys are unordered and are canonicalized by
lexicographic sort of the two partition ids.  The two fields hold the
lexicographically first and second id. -/
structure PartitionConnectionID where
  lexicalFirst : PartitionID
  lexicalSecond : PartitionID
deriving DecidableEq, Repr

/-- Modelled from the spec: constructor of the unordered partition-pair key,
canonicalizing by lexicographic sort of the two partition ids. -/
def NewPartitionConnectionID (a b : PartitionID) : PartitionConnectionID :=
  if a < b then ⟨a, b⟩ else ⟨b, a⟩

/-- Modelled from the spec: the partition topology holds the default
connection, the partition-to-services map and the per-pair overrides keyed by
unordered partition-pair keys. -/
structure PartitionTopology where
  defaultConnection : PartitionConnection
  partitionServices : List (PartitionID × List ServiceID)
  partitionConnectionOverrides : List (PartitionConnectionID × PartitionConnection)
deriving DecidableEq, Repr

/-- Errors raised by the topology, the backend and the service networks. -/
inductive KErr
  | serviceAlreadyPlaced
  | unknownPartition
  | servicesMissing
  | unknownPartitionReferenced
  | ipExhausted
  | emptyServiceId
  | networkDestroyed
  | duplicateService
  | serviceDirectoryFailure
  | noRegistration
  | registrationFailed
  | unimplementedBatchRegister
  | unimplementedBatchStart
  | noSidecar
  | missingRegistrationInfo
  | backendStopFailed
  | noContainer
  | partitioningDisabled
  | readinessFailed
  | startFailed
  | inconsistentResources
deriving DecidableEq, Repr

namespace PartitionTopology

/-- Partition a service currently belongs to, if any. -/
def partitionOfService (t : PartitionTopology) (sid : ServiceID) :
    Option PartitionID :=
  (t.partitionServices.find? (fun p => p.2.contains sid)).map (fun p => p.1)

/-- All services currently known to the topology. -/
def services (t : PartitionTopology) : List ServiceID :=
  (t.partitionServices.map (fun p => p.2)).flatten

/-- Modelled from the spec: lookup of the connection for an unordered pair of
partitions — the override if one exists for the canonicalized key, else the
default connection. -/
def getPartitionConnection (t : PartitionTopology) (a b : PartitionID) :
    PartitionConnection :=
  match alookup (NewPartitionConnectionID a b) t.partitionConnectionOverrides with
  | some c => c
  | none => t.defaultConnection

/-- Modelled from the spec: `addService(id, partitionId)` fails with
`UnknownPartition` if the partition is absent and `ServiceAlreadyPlaced` if
the id is already in any partition. -/
def addService (t : PartitionTopology) (sid : ServiceID) (pid : PartitionID) :
    Except KErr PartitionTopology :=
  if t.partitionServices.any (fun p => p.2.contains sid) then
    .error .serviceAlreadyPlaced
  else
    match alookup pid t.partitionServices with
    | none => .error .unknownPartition
    | some svcs =>
      .ok { t with partitionServices := ainsert pid (sid :: svcs) t.partitionServices }

/-- Modelled from the spec: `removeService(id)` is idempotent. -/
def removeService (t : PartitionTopology) (sid : ServiceID) : PartitionTopology :=
  { t with
    partitionServices := t.partitionServices.map (fun p => (p.1, p.2.filter (fun s => s ≠ sid))) }

/-- Modelled from the spec: `repartition` atomically replaces partitions,
overrides and the default connection; it fails with `ServicesMissing` if a
currently-known service is absent from the new partitions and with
`UnknownPartitionReferenced` if an override names an unknown partition. -/
def repartition (t : PartitionTopology)
    (newPartitionServices : List (PartitionID × List ServiceID))
    (newOverrides : List (PartitionConnectionID × PartitionConnection))
    (newDefault : PartitionConnection) : Except KErr PartitionTopology :=
  if t.services.all (fun s => newPartitionServices.any (fun p => p.2.contains s)) then
    if newOverrides.all (fun o =>
        (newPartitionServices.any (fun p => p.1 = o.1.lexicalFirst)) &&
        (newPartitionServices.any (fun p => p.1 = o.1.lexicalSecond))) then
      .ok ⟨newDefault, newPartitionServices, newOverrides⟩
    else .error .unknownPartitionReferenced
  else .error .servicesMissing

/-- Packet-loss percentage service `a` must apply to traffic bound for
service `b`: same-partition pairs yield 0, cross-partition pairs use the
unordered-pair connection lookup. -/
def packetLossTo (t : PartitionTopology) (a b : ServiceID) : Nat :=
  let pa := (t.partitionOfService a).getD ""
  let pb := (t.partitionOfService b).getD ""
  if pa = pb then 0 else (t.getPartitionConnection pa pb).packetLossPercentage

/-- Row of the packet-loss matrix for one service: the loss it must apply to
every other known service. -/
def packetLossRow (t : PartitionTopology) (a : ServiceID) :
    List (ServiceID × Nat) :=
  (t.services.filter (fun b => b ≠ a)).map (fun b => (b, t.packetLossTo a b))

/-- The derived packet-loss matrix keyed by service id
(`GetServicePacketLossConfigurationsByServiceID`). -/
def packetLossByService (t : PartitionTopology) :
    List (ServiceID × List (ServiceID × Nat)) :=
  t.services.map (fun a => (a, t.packetLossRow a))

end PartitionTopology

/-- Run status of a user-service container in the backend. -/
inductive ContainerStatus
  | running
  | stopped
deriving DecidableEq, Repr

/-- Service registration: the reservation of a GUID and a private IP for a
service id, created by register and destroyed by the destroy path.  The
enclave id field is elided because the model is per-enclave. -/
structure ServiceRegistration where
  id : ServiceID
  guid : ServiceGUID
  privateIP : IP
deriving DecidableEq, Repr

/-- Docker resources of a user service: the container with the service id and
private IP recorded in its labels, and its run status.  Files-artifact
expander volumes are elided (services in this model request no artifacts). -/
structure Container where
  serviceId : ServiceID
  privateIp : IP
  status : ContainerStatus
deriving DecidableEq, Repr

/-- Filter object for backend operations: an empty field matches all. -/
structure ServiceFilters where
  guids : List ServiceGUID
  ids : List ServiceID
  statuses : List ContainerStatus
deriving DecidableEq, Repr

/-- Does a container match the filters (guid label, id label, status)? -/
def containerMatches (f : ServiceFilters) (guid : ServiceGUID) (c : Container) :
    Bool :=
  (f.guids.isEmpty || f.guids.contains guid) &&
  (f.ids.isEmpty || f.ids.contains c.serviceId) &&
  (f.statuses.isEmpty || f.statuses.contains c.status)

/-- Does a service registration match the guid/id filters (registrations have
no run status)? -/
def registrationMatches (f : ServiceFilters) (r : ServiceRegistration) : Bool :=
  (f.guids.isEmpty || f.guids.contains r.guid) &&
  (f.ids.isEmpty || f.ids.contains r.id)

/-- State of the Docker backend for one enclave: the free-IP-address tracker
pool, the in-memory service registration map (the canonical resource), and
the user-service containers. -/
structure DockerKurtosisBackend where
  freeIps : List IP
  serviceRegistrations : List (ServiceGUID × ServiceRegistration)
  containers : List (ServiceGUID × Container)
deriving DecidableEq, Repr

namespace DockerKurtosisBackend

/-- Embedding of `DockerKurtosisBackend.RegisterUserService`: take a free IP
from the enclave tracker (failing when exhausted), mint a GUID from the
service id and the current time, and record the registration; the
free-the-IP and remove-the-registration compensations never fire because no
later step of the source function can fail. -/
def RegisterUserService (b : DockerKurtosisBackend) (serviceId : ServiceID)
    (nowUnix : Nat) : Except KErr ServiceRegistration × DockerKurtosisBackend :=
  match b.freeIps with
  | [] => (.error .ipExhausted, b)
  | ipAddr :: rest =>
    let guid : ServiceGUID := serviceId ++ "-" ++ toString nowUnix
    let registration : ServiceRegistration := ⟨serviceId, guid, ipAddr⟩
    (.ok registration,
      { b with
        freeIps := rest
        serviceRegistrations := ainsert guid registration b.serviceRegistrations })

/-- Embedding of `DockerKurtosisBackend.RegisterUserServices`: the batch
variant unconditionally returns an error — it is an unimplemented stub. -/
def RegisterUserServices (b : DockerKurtosisBackend)
    (_serviceIds : List ServiceID) :
    (Option (List (ServiceID × ServiceRegistration)) ×
      Option (List (ServiceID × KErr)) × Option KErr) × DockerKurtosisBackend :=
  ((none, none, some .unimplementedBatchRegister), b)

/-- Embedding of `DockerKurtosisBackend.StartUserServices`: the batch variant
unconditionally returns an error — it is an unimplemented stub. -/
def StartUserServices (b : DockerKurtosisBackend)
    (_services : List (ServiceGUID × ServiceID)) :
    (Option (List (ServiceGUID × ServiceRegistration)) ×
      Option (List (ServiceGUID × KErr)) × Option KErr) × DockerKurtosisBackend :=
  ((none, none, some .unimplementedBatchStart), b)

/-- Embedding of `DockerKurtosisBackend.StopUserServices`: kill (not remove)
every container matching the filters so logs stay around; killing a
container that is not running fails for that GUID, and the per-GUID outcomes
are aggregated into ok and errored maps. -/
def StopUserServices (b : DockerKurtosisBackend) (f : ServiceFilters) :
    (List ServiceGUID × List (ServiceGUID × KErr) × Option KErr) ×
      DockerKurtosisBackend :=
  let matching := b.containers.filter (fun p => containerMatches f p.1 p.2)
  let killed := matching.filter (fun p => p.2.status == ContainerStatus.running)
  let failed := matching.filter (fun p => p.2.status != ContainerStatus.running)
  ((killed.map (fun p => p.1),
    failed.map (fun p => (p.1, KErr.backendStopFailed)),
    none),
   { b with
     containers := b.containers.map (fun p =>
       (p.1,
        if containerMatches f p.1 p.2 && p.2.status == ContainerStatus.running then
          { p.2 with status := ContainerStatus.stopped }
        else p.2)) })

/-- Embedding of `DockerKurtosisBackend.GetUserServiceLogs`: a readable log
stream is attached for every matching container (stopped containers
included); the result is the list of GUIDs with a stream plus the per-GUID
errored map. -/
def GetUserServiceLogs (b : DockerKurtosisBackend) (f : ServiceFilters) :
    List ServiceGUID × List (ServiceGUID × KErr) :=
  ((b.containers.filter (fun p => containerMatches f p.1 p.2)).map (fun p => p.1),
   [])

/-- Embedding of `DockerKurtosisBackend.DestroyUserServices`: filter the
in-memory registrations (the canonical resource), remove the Docker
resources of the matching services, then deregister — releasing each
deregistered registration's IP back to the tracker and deleting it from the
registration map.  Container removal always succeeds in this model and no
expander volumes exist, so the errored map is empty.  Faithful to the
source: the `successfulGuids` map created before the final deregistration
loop is never populated inside it, so the returned ok set is always empty. -/
def DestroyUserServices (b : DockerKurtosisBackend) (f : ServiceFilters) :
    (List ServiceGUID × List (ServiceGUID × KErr) × Option KErr) ×
      DockerKurtosisBackend :=
  let matchingRegistrations :=
    b.serviceRegistrations.filter (fun p => registrationMatches f p.2)
  let resources := b.containers.filter (fun p => containerMatches f p.1 p.2)
  if resources.length > matchingRegistrations.length then
    (([], [], some .inconsistentResources), b)
  else
    let registrationsWithoutResources :=
      matchingRegistrations.filter (fun p => (alookup p.1 resources).isNone)
    let initialDeregister :=
      if f.statuses.isEmpty then registrationsWithoutResources else []
    let successfulResourceRemovalGuids := resources.map (fun p => p.1)
    let afterRemoval :=
      { b with
        containers := b.containers.filter
          (fun p => !(successfulResourceRemovalGuids.contains p.1)) }
    let registrationsToDeregister :=
      initialDeregister ++
        matchingRegistrations.filter
          (fun p => successfulResourceRemovalGuids.contains p.1)
    let successfulGuids : List ServiceGUID := []
    ((successfulGuids, [], none),
     { afterRemoval with
       freeIps :=
         registrationsToDeregister.map (fun p => p.2.privateIP) ++
           afterRemoval.freeIps
       serviceRegistrations :=
         afterRemoval.serviceRegistrations.filter
           (fun p => !(registrationsToDeregister.any (fun q => q.1 == p.1))) })

end DockerKurtosisBackend

/-- Backend state with one registered service whose container is running:
the concrete input on which `DestroyUserServices` exhibits its empty ok
set. -/
def destroyProbeBackend : DockerKurtosisBackend :=
  ⟨[], [("svc-1700000000", ⟨"svc", "svc-1700000000", 7⟩)],
   [("svc-1700000000", ⟨"svc", 7, ContainerStatus.running⟩)]⟩

/-- Filters matching every service (all fields empty). -/
def matchAllFilters : ServiceFilters := ⟨[], [], []⟩

/-- Default the partition ID to `"default"` when the caller passes the empty
string. -/
def defaultIfEmpty (pid : PartitionID) : PartitionID :=
  if pid = "" then "default" else pid

/-- Is the string empty or all whitespace (Go:
`strings.TrimSpace(s) == ""`)? -/
def isBlank (s : String) : Bool :=
  s.toList.all (fun c => c.isWhitespace)

/-- State of the legacy coordinator `ServiceNetworkImpl` together with its
collaborators: the free-IP tracker, the topology, the registration-info and
run-info maps, the sidecar set, and the Docker containers the run infos
point at. -/
structure ServiceNetworkImpl where
  isDestroyed : Bool
  isPartitioningEnabled : Bool
  freeIps : List IP
  topology : PartitionTopology
  serviceRegistrationInfo : List (ServiceID × IP)
  serviceRunInfo : List (ServiceID × String)
  networkingSidecars : List ServiceID
  containers : List (String × ContainerStatus)
deriving DecidableEq, Repr

namespace ServiceNetworkImpl

/-- Embedding of `ServiceNetworkImpl.RegisterService`: guard the destroyed
flag, reject empty and duplicate service ids and unknown partitions, create
the service directory (`dirCreationFails` models its I/O failure), take a
free IP from the tracker, record the registration info, and add the service
to the topology.  A failure after the IP was taken runs the deferred
compensations in reverse order: delete the registration-info entry, then
release the IP back to the tracker. -/
def RegisterService (net : ServiceNetworkImpl) (serviceId : ServiceID)
    (partitionId : PartitionID) (dirCreationFails : Bool) :
    Except KErr IP × ServiceNetworkImpl :=
  if net.isDestroyed then (.error .networkDestroyed, net)
  else if isBlank serviceId then (.error .emptyServiceId, net)
  else if (alookup serviceId net.serviceRegistrationInfo).isSome then
    (.error .duplicateService, net)
  else if (alookup (defaultIfEmpty partitionId) net.topology.partitionServices).isNone then
    (.error .unknownPartition, net)
  else if dirCreationFails then (.error .serviceDirectoryFailure, net)
  else
    match net.freeIps with
    | [] => (.error .ipExhausted, net)
    | ipAddr :: rest =>
      let net2 : ServiceNetworkImpl :=
        { net with
          freeIps := rest
          serviceRegistrationInfo :=
            ainsert serviceId ipAddr net.serviceRegistrationInfo }
      match net2.topology.addService serviceId (defaultIfEmpty partitionId) with
      | .error e =>
        let net3 : ServiceNetworkImpl :=
          { net2 with
            serviceRegistrationInfo :=
              aerase serviceId net2.serviceRegistrationInfo }
        (.error e, { net3 with freeIps := ipAddr :: net3.freeIps })
      | .ok newTopology => (.ok ipAddr, { net2 with topology := newTopology })

/-- Embedding of `ServiceNetworkImpl.removeServiceWithoutMutex` (reached
from `RemoveService` after the mutex and destroyed-flag guards): remove the
service from the topology, delete its registration info, stop (not destroy)
its container when run info exists and delete the run info, release the
registration's IP back to the free-IP tracker, and destroy the sidecar when
partitioning is enabled and one exists. -/
def RemoveService (net : ServiceNetworkImpl) (serviceId : ServiceID) :
    Except KErr Unit × ServiceNetworkImpl :=
  if net.isDestroyed then (.error .networkDestroyed, net)
  else
    match alookup serviceId net.serviceRegistrationInfo with
    | none => (.error .missingRegistrationInfo, net)
    | some ipAddr =>
      let net1 : ServiceNetworkImpl :=
        { net with
          topology := net.topology.removeService serviceId
          serviceRegistrationInfo :=
            aerase serviceId net.serviceRegistrationInfo }
      let net2 : ServiceNetworkImpl :=
        match alookup serviceId net1.serviceRunInfo with
        | none => net1
        | some containerId =>
          { net1 with
            containers := net1.containers.map (fun p =>
              if p.1 == containerId then (p.1, ContainerStatus.stopped) else p)
            serviceRunInfo := aerase serviceId net1.serviceRunInfo }
      let net3 : ServiceNetworkImpl :=
        { net2 with freeIps := ipAddr :: net2.freeIps }
      if net3.isPartitioningEnabled && net3.networkingSidecars.contains serviceId then
        (.ok (),
         { net3 with
           networkingSidecars :=
             net3.networkingSidecars.filter (fun s => s ≠ serviceId) })
      else (.ok (), net3)

end ServiceNetworkImpl

/-- The concrete legacy network used to witness the register rollback: the
topology already contains a stray service id that is absent from the
registration table, so `AddService` fails after the IP was allocated and the
registration-info entry was inserted, and both must be undone. -/
def registerRollbackProbe : ServiceNetworkImpl :=
  ⟨false, false, [5], ⟨⟨0⟩, [("default", ["ghost"])], []⟩, [], [], [], []⟩

/-- The concrete legacy network used to witness the register success shape. -/
def registerSuccessProbe : ServiceNetworkImpl :=
  ⟨false, false, [5, 6], ⟨⟨0⟩, [("default", [])], []⟩, [], [], [], []⟩

/-- The concrete legacy network used to refute the claim that a remove call
keeps the IP held: one registered, running service with IP 7 and an empty
free pool. -/
def legacyRemoveProbe : ServiceNetworkImpl :=
  ⟨false, false, [], ⟨⟨0⟩, [("default", ["svc"])], []⟩, [("svc", 7)],
   [("svc", "ctr-1")], [], [("ctr-1", ContainerStatus.running)]⟩

/-- Observable events of a service-network operation: the enclave-wide mutex
acquisition and release, traffic-control (packet-loss) applications through
sidecars, the backend batch container start, per-service sidecar attach and
traffic-control initialization, and per-service readiness checks. -/
inductive Ev
  | lock
  | unlock
  | applyTC (targets : List ServiceID)
  | startContainers
  | addSidecar (id : ServiceID)
  | initTC (id : ServiceID)
  | readinessCheck (id : ServiceID)
deriving DecidableEq, Repr

/-- State of the current coordinator `ServiceNetwork`: partitioning flag,
partition topology, sidecar table (the set of service ids that have a
sidecar), the registered-service-info table, and the Docker backend it
drives. -/
structure ServiceNetwork where
  isPartitioningEnabled : Bool
  topology : PartitionTopology
  networkingSidecars : List ServiceID
  registeredServiceInfo : List (ServiceID × ServiceRegistration)
  kurtosisBackend : DockerKurtosisBackend
deriving DecidableEq, Repr

/-- Embedding of the private helper `updateTrafficControlConfiguration`:
for every target service, every service in its packet-loss row must have
registration info (an IP), and the target itself must have a sidecar;
otherwise the update fails. -/
def updateTrafficControlConfiguration
    (targetServicePacketLossConfigs : List (ServiceID × List (ServiceID × Nat)))
    (services : List (ServiceID × ServiceRegistration))
    (networkingSidecars : List ServiceID) : Except KErr Unit :=
  if targetServicePacketLossConfigs.all (fun t =>
      t.2.all (fun o => (alookup o.1 services).isSome)) then
    if targetServicePacketLossConfigs.all (fun t =>
        networkingSidecars.contains t.1) then .ok ()
    else .error .noSidecar
  else .error .missingRegistrationInfo

/-- Outcome of the backend interface call `StartUserServices` inside the
batch start: successfully started services (their registrations), per-GUID
failures, and an overall error.  The repository's Docker implementation
always produces `dockerStartUserServicesOutcome`. -/
structure StartOutcome where
  successes : List (ServiceGUID × ServiceRegistration)
  failures : List (ServiceGUID × KErr)
  err : Option KErr
deriving DecidableEq, Repr

/-- The outcome the repository's Docker backend produces for every batch
start: its `StartUserServices` is an unimplemented stub that returns an
error unconditionally. -/
def dockerStartUserServicesOutcome : StartOutcome :=
  ⟨[], [], some .unimplementedBatchStart⟩

/-- Result of `ServiceNetwork.StartServices`: the three named Go return
values, the post-state and the event trace. -/
structure StartServicesResult where
  successfulServices : List (ServiceGUID × ServiceRegistration)
  failedServices : List (ServiceGUID × KErr)
  resultErr : Option KErr
  state : ServiceNetwork
  trace : List Ev
deriving DecidableEq, Repr

namespace ServiceNetwork

/-- Embedding of `ServiceNetwork.StartServices` (mutex held throughout):
resolve every batch id to its registration (error if one is missing); when
partitioning is enabled, pre-block by applying the packet-loss matrix with
the batch ids excluded through the existing sidecars before any container
starts; start the batch containers through the backend (the files-artifact
plumbing of the `startServices` helper does not affect the embedded state
and is elided — the outcome of the backend call is `outcome`); then, still
when partitioning is enabled, attach and initialize a sidecar for every
started service and apply each started service's own matrix row.  Sidecar
attach and initialization succeed in this model; the traffic-control calls
fail exactly when `updateTrafficControlConfiguration` fails. -/
def StartServices (net : ServiceNetwork) (serviceConfigs : List ServiceID)
    (outcome : StartOutcome) : StartServicesResult :=
  if !(serviceConfigs.all (fun id => (alookup id net.registeredServiceInfo).isSome)) then
    ⟨[], [], some .noRegistration, net, [.lock, .unlock]⟩
  else if net.isPartitioningEnabled then
    let matrix := net.topology.packetLossByService
    let withoutNewNodes := matrix.filter (fun r => !(serviceConfigs.contains r.1))
    match updateTrafficControlConfiguration withoutNewNodes
        net.registeredServiceInfo net.networkingSidecars with
    | .error e => ⟨[], [], some e, net, [.lock, .unlock]⟩
    | .ok _ =>
      let startedIds := outcome.successes.map (fun p => p.2.id)
      let sidecarTrace :=
        (outcome.successes.map (fun p =>
          [Ev.addSidecar p.2.id, Ev.initTC p.2.id])).flatten
      let sidecars2 := startedIds ++ net.networkingSidecars
      let updatesToApply :=
        startedIds.map (fun idv => (idv, (alookup idv matrix).getD []))
      match updateTrafficControlConfiguration updatesToApply
          net.registeredServiceInfo sidecars2 with
      | .error e =>
        ⟨[], [], some e, { net with networkingSidecars := sidecars2 },
         [Ev.lock, Ev.applyTC (withoutNewNodes.map (fun r => r.1)),
          Ev.startContainers] ++ sidecarTrace ++ [Ev.unlock]⟩
      | .ok _ =>
        ⟨outcome.successes, outcome.failures, outcome.err,
         { net with networkingSidecars := sidecars2 },
         [Ev.lock, Ev.applyTC (withoutNewNodes.map (fun r => r.1)),
          Ev.startContainers] ++ sidecarTrace ++
           [Ev.applyTC startedIds, Ev.unlock]⟩
  else
    ⟨outcome.successes, outcome.failures, outcome.err, net,
     [.lock, .startContainers, .unlock]⟩

/-- Embedding of `ServiceNetwork.RegisterServices`: reject ids that already
exist in the network, reject unknown partitions, then call the backend's
batch register.  The repository's Docker backend batch register is an
unimplemented stub that always errors, so the insert-into-table and
insert-into-topology steps (and their deferred compensations) that follow a
successful backend register are unreachable with this backend and are not
modelled. -/
def RegisterServices (net : ServiceNetwork) (serviceIDs : List ServiceID)
    (partitionID : PartitionID) :
    Except KErr (List (ServiceID × IP)) × ServiceNetwork × List Ev :=
  if serviceIDs.any (fun id => (alookup id net.registeredServiceInfo).isSome) then
    (.error .duplicateService, net, [.lock, .unlock])
  else if (alookup (defaultIfEmpty partitionID) net.topology.partitionServices).isNone then
    (.error .unknownPartition, net, [.lock, .unlock])
  else
    match (net.kurtosisBackend.RegisterUserServices serviceIDs).1.2.2 with
    | some e => (.error e, net, [.lock, .unlock])
    | none => (.error .registrationFailed, net, [.lock, .unlock])

/-- Embedding of `ServiceNetwork.RemoveService`: look up the registration,
remove the service from the topology, delete it from the registration
table, stop (not destroy) its container through the backend so logs remain
retrievable, and destroy the sidecar when partitioning is enabled and one
exists.  The registration's IP is NOT released — only the separate destroy
path touches the allocator. -/
def RemoveService (net : ServiceNetwork) (serviceId : ServiceID) :
    Except KErr ServiceGUID × ServiceNetwork × List Ev :=
  match alookup serviceId net.registeredServiceInfo with
  | none => (.error .noRegistration, net, [.lock, .unlock])
  | some serviceToRemove =>
    let serviceGuid := serviceToRemove.guid
    let net1 : ServiceNetwork :=
      { net with
        topology := net.topology.removeService serviceId
        registeredServiceInfo := aerase serviceId net.registeredServiceInfo }
    let stopResult :=
      net1.kurtosisBackend.StopUserServices ⟨[serviceGuid], [], []⟩
    let net2 : ServiceNetwork := { net1 with kurtosisBackend := stopResult.2 }
    match stopResult.1.2.2 with
    | some e => (.error e, net2, [.lock, .unlock])
    | none =>
      if (alookup serviceGuid stopResult.1.2.1).isSome then
        (.error .backendStopFailed, net2, [.lock, .unlock])
      else if net2.isPartitioningEnabled &&
          net2.networkingSidecars.contains serviceId then
        (.ok serviceGuid,
         { net2 with
           networkingSidecars :=
             net2.networkingSidecars.filter (fun s => s ≠ serviceId) },
         [.lock, .unlock])
      else (.ok serviceGuid, net2, [.lock, .unlock])

/-- Embedding of `ServiceNetwork.Repartition`: refuse when partitioning is
not enabled, delegate to the topology's atomic swap, re-derive the
packet-loss matrix and push it through every sidecar.  A sidecar-update
failure is surfaced but the topology change is kept. -/
def Repartition (net : ServiceNetwork)
    (newPartitionServices : List (PartitionID × List ServiceID))
    (newOverrides : List (PartitionConnectionID × PartitionConnection))
    (newDefault : PartitionConnection) :
    Except KErr Unit × ServiceNetwork × List Ev :=
  if !net.isPartitioningEnabled then
    (.error .partitioningDisabled, net, [.lock, .unlock])
  else
    match net.topology.repartition newPartitionServices newOverrides newDefault with
    | .error e => (.error e, net, [.lock, .unlock])
    | .ok newTopology =>
      let matrix := newTopology.packetLossByService
      match updateTrafficControlConfiguration matrix
          net.registeredServiceInfo net.networkingSidecars with
      | .error e => (.error e, { net with topology := newTopology },
          [.lock, .unlock])
      | .ok _ => (.ok (), { net with topology := newTopology },
          [.lock, .applyTC (matrix.map (fun r => r.1)), .unlock])

/-- Embedding of `ServiceNetwork.PauseService`: validate the registration
and delegate to the backend with the service's GUID; the backend fails when
the service has no container. -/
def PauseService (net : ServiceNetwork) (serviceId : ServiceID) :
    Except KErr Unit × ServiceNetwork × List Ev :=
  match alookup serviceId net.registeredServiceInfo with
  | none => (.error .noRegistration, net, [.lock, .unlock])
  | some reg =>
    if (alookup reg.guid net.kurtosisBackend.containers).isSome then
      (.ok (), net, [.lock, .unlock])
    else (.error .noContainer, net, [.lock, .unlock])

/-- Embedding of `ServiceNetwork.UnpauseService`: same shape as pause. -/
def UnpauseService (net : ServiceNetwork) (serviceId : ServiceID) :
    Except KErr Unit × ServiceNetwork × List Ev :=
  match alookup serviceId net.registeredServiceInfo with
  | none => (.error .noRegistration, net, [.lock, .unlock])
  | some reg =>
    if (alookup reg.guid net.kurtosisBackend.containers).isSome then
      (.ok (), net, [.lock, .unlock])
    else (.error .noContainer, net, [.lock, .unlock])

/-- Embedding of `ServiceNetwork.ExecCommand`: validate the registration and
run the exec through the backend against the service's GUID; the backend
fails when no container exists; the exec result (exit code and output) is
not modelled beyond its presence. -/
def ExecCommand (net : ServiceNetwork) (serviceId : ServiceID)
    (_command : List String) :
    Except KErr (Nat × String) × ServiceNetwork × List Ev :=
  match alookup serviceId net.registeredServiceInfo with
  | none => (.error .noRegistration, net, [.lock, .unlock])
  | some reg =>
    match alookup reg.guid net.kurtosisBackend.containers with
    | none => (.error .noContainer, net, [.lock, .unlock])
    | some _ => (.ok (0, ""), net, [.lock, .unlock])

/-- Embedding of `ServiceNetwork.GetService`: validate the registration and
fetch the service object from the backend by GUID. -/
def GetService (net : ServiceNetwork) (serviceId : ServiceID) :
    Except KErr Container × ServiceNetwork × List Ev :=
  match alookup serviceId net.registeredServiceInfo with
  | none => (.error .noRegistration, net, [.lock, .unlock])
  | some reg =>
    match alookup reg.guid net.kurtosisBackend.containers with
    | none => (.error .noContainer, net, [.lock, .unlock])
    | some c => (.ok c, net, [.lock, .unlock])

/-- Embedding of `ServiceNetwork.GetServiceIDs`: collect the registered
service ids.  Faithful to the source, this method does NOT touch the
enclave mutex, so its event trace is empty. -/
def GetServiceIDs (net : ServiceNetwork) : List ServiceID × List Ev :=
  (net.registeredServiceInfo.map (fun p => p.1), [])

/-- Embedding of `ServiceNetwork.CopyFilesFromService`: validate the
registration and stream a tar of the source path out of the container into
the files-artifact store (the stream content is not modelled).  Faithful to
the source, this method does NOT touch the enclave mutex, so its event
trace is empty. -/
def CopyFilesFromService (net : ServiceNetwork) (serviceId : ServiceID)
    (_srcPath : String) : Except KErr Unit × ServiceNetwork × List Ev :=
  match alookup serviceId net.registeredServiceInfo with
  | none => (.error .noRegistration, net, [])
  | some reg =>
    match alookup reg.guid net.kurtosisBackend.containers with
    | none => (.error .noContainer, net, [])
    | some _ => (.ok (), net, [])

end ServiceNetwork

/-- A service network with one registered, running, sidecar-equipped
service, used as the concrete input of several witnesses. -/
def removeProbeNet : ServiceNetwork :=
  ⟨true, ⟨⟨0⟩, [("default", ["svc"])], []⟩, ["svc"],
   [("svc", ⟨"svc", "svc-g", 7⟩)],
   ⟨[], [("svc-g", ⟨"svc", "svc-g", 7⟩)],
    [("svc-g", ⟨"svc", 7, ContainerStatus.running⟩)]⟩⟩

/-- The backend of `removeProbeNet`, used as the concrete input of the
destroy-path witness. -/
def destroyReleaseBackend : DockerKurtosisBackend :=
  ⟨[], [("svc-g", ⟨"svc", "svc-g", 7⟩)],
   [("svc-g", ⟨"svc", 7, ContainerStatus.running⟩)]⟩

/-- Balanced-mutex shape of an operation's event trace: the first event is
the mutex acquisition, the last is the release, and the interior contains
neither. -/
def MutexGuardedTrace (t : List Ev) : Prop :=
  ∃ inner : List Ev, t = Ev.lock :: inner ++ [Ev.unlock] ∧
    Ev.lock ∉ inner ∧ Ev.unlock ∉ inner

/-- Readiness phase of the `add_services` Execute: after a fully successful
batch start, a readiness check runs for every started service. -/
def addServicesReadinessTrace
    (started : List (ServiceGUID × ServiceRegistration)) : List Ev :=
  started.map (fun p => Ev.readinessCheck p.2.id)

/-- Combined event trace of one `add_services` execution: the batch start
(`ServiceNetwork.StartServices`) followed — only when the start returned no
error and no per-service failure — by the readiness phase over the started
services (add_services.go, `Execute`). -/
def addServicesTrace (net : ServiceNetwork) (serviceConfigs : List ServiceID)
    (outcome : StartOutcome) : List Ev :=
  let r := net.StartServices serviceConfigs outcome
  if r.resultErr.isSome || !r.failedServices.isEmpty then r.trace
  else r.trace ++ addServicesReadinessTrace r.successfulServices

/-- The concrete network witnessing the pre-blocking order: service a is
already running with a sidecar, service b is registered and about to
start. -/
def preblockProbeNet : ServiceNetwork :=
  ⟨true, ⟨⟨0⟩, [("default", ["b", "a"])], []⟩, ["a"],
   [("a", ⟨"a", "a-g", 1⟩), ("b", ⟨"b", "b-g", 2⟩)], ⟨[], [], []⟩⟩

/-- The backend outcome witnessing the pre-blocking order: service b starts
successfully. -/
def preblockOutcome : StartOutcome := ⟨[("b-g", ⟨"b", "b-g", 2⟩)], [], none⟩

/-- Result of one `AddServicesCapabilities.Execute` run: whether it
returned an error, and the services on which the rollback
(`removeAllStartedServices`, which calls `RemoveService` for every started
service) was invoked before returning. -/
structure ExecuteResult where
  isError : Bool
  rolledBackServices : List ServiceID
deriving DecidableEq, Repr

/-- Embedding of `AddServicesCapabilities.Execute` downstream of its
`StartServices` call (add_services.go): `startErr` is the error return of
`StartServices`, `failedServices` its per-service failure map,
`startedServices` its success map, and `readinessFails` says whether
`allServicesReadinessCheck` returns an error.  Faithful to the source: the
`defer` that would invoke `removeAllStartedServices` while
`shouldDeleteAllStartedServices` is still true is registered only AFTER the
readiness check has already returned, so the readiness-failure return path
runs no rollback; and once the defer is registered, the remaining
straight-line code always reaches `shouldDeleteAllStartedServices = false`
before returning, so the deferred rollback never fires on any path. -/
def addServicesExecute (startedServices : List ServiceID)
    (failedServices : List ServiceID) (startErr : Bool)
    (readinessFails : Bool) : ExecuteResult :=
  if startErr then ⟨true, []⟩
  else if !failedServices.isEmpty then ⟨true, []⟩
  else
    if readinessFails then ⟨true, []⟩
    else
      let _ := startedServices
      ⟨false, []⟩

/-- State seen by the spec-level batch start: the registration table and the
set of running service containers. -/
structure BatchState where
  registrations : List (ServiceID × ServiceGUID)
  running : List ServiceGUID
deriving DecidableEq, Repr

/-- GUID minted for a batch-started service in the spec-level model. -/
def batchGuid (n : ServiceID) : ServiceGUID := n ++ "-guid"

/-- Modelled from the spec: the batch-start implementation behind the
`StartServices(ctx, configs, parallelism)` interface that `add_services`
calls — returning `(started, failed)` maps with all-or-nothing rollback —
is not part of the source snapshot; only its caller (add_services.go) and
the legacy non-rolling-back helper are.  Per the spec (§4.3.2 and §7): the
batch registers each service, starts each container (per-service success
given by the boolean in its config entry), and if ANY service failed to
start it destroys every successfully started service of the batch — the
container leaves the running set and the batch registrations are deleted —
and returns the aggregated per-id failure map with an empty started map. -/
def startBatch (s : BatchState) (configs : List (ServiceID × Bool)) :
    (List (ServiceID × ServiceGUID) × List (ServiceID × KErr)) × BatchState :=
  let afterRegister : BatchState :=
    { registrations :=
        s.registrations ++ configs.map (fun c => (c.1, batchGuid c.1)),
      running := s.running }
  let started := (configs.filter (fun c => c.2)).map
    (fun c => (c.1, batchGuid c.1))
  let failed := (configs.filter (fun c => !c.2)).map
    (fun c => (c.1, KErr.startFailed))
  let afterStart : BatchState :=
    { afterRegister with
      running := afterRegister.running ++ started.map (fun p => p.2) }
  if failed.isEmpty then ((started, []), afterStart)
  else
    let rolledBack : BatchState :=
      { registrations := afterStart.registrations.filter
          (fun p => !(configs.any (fun c => c.1 == p.1))),
        running := afterStart.running.filter
          (fun g => !(configs.any (fun c => batchGuid c.1 == g))) }
    (([], failed), rolledBack)

/-- The concrete state and batch witnessing the all-or-nothing rollback:
one prior service, a batch where x starts and y fails. -/
def batchProbeState : BatchState := ⟨[("old", "old-guid")], ["old-guid"]⟩

theorem aerase_of_alookup_none {α β : Type} [DecidableEq α] (k : α)
    (m : List (α × β)) (h : alookup k m = none) : aerase k m = m := by
  induction m with
  | nil => rfl
  | cons p t ih =>
    obtain ⟨k', v⟩ := p
    by_cases hk : k' = k
    · simp [alookup, hk] at h
    · simp only [alookup, hk, if_false] at h
      simp [aerase, hk, ih h]

theorem alookup_ainsert {α β : Type} [DecidableEq α] (k : α) (v : β)
    (m : List (α × β)) : alookup k (ainsert k v m) = some v := by
  simp [ainsert, alookup]

theorem aerase_idem {α β : Type} [DecidableEq α] (k : α)
    (m : List (α × β)) : aerase k (aerase k m) = aerase k m := by
  induction m with
  | nil => rfl
  | cons p t ih =>
    obtain ⟨k', v'⟩ := p
    by_cases hk : k' = k
    · simp only [aerase, if_pos hk]
      exact ih
    · simp only [aerase, if_neg hk]
      rw [ih]

theorem aerase_ainsert {α β : Type} [DecidableEq α] (k : α) (v : β)
    (m : List (α × β)) : aerase k (ainsert k v m) = aerase k m := by
  simp only [ainsert, aerase, if_pos rfl]
  exact aerase_idem k m

theorem alookup_aerase_ne {α β : Type} [DecidableEq α] (k k' : α)
    (m : List (α × β)) (h : k' ≠ k) :
    alookup k' (aerase k m) = alookup k' m := by
  induction m with
  | nil => rfl
  | cons p t ih =>
    obtain ⟨a, b⟩ := p
    by_cases ha : a = k
    · subst ha
      rw [show aerase a ((a, b) :: t) = aerase a t from by simp [aerase]]
      rw [ih]
      simp only [alookup]
      rw [if_neg (fun hc => h hc.symm)]
    · rw [show aerase k ((a, b) :: t) = (a, b) :: aerase k t from by simp [aerase, ha]]
      simp only [alookup]
      by_cases hb : a = k'
      · rw [if_pos hb, if_pos hb]
      · rw [if_neg hb, if_neg hb]
        exact ih

theorem NewPartitionConnectionID_comm (a b : PartitionID) :
    NewPartitionConnectionID a b = NewPartitionConnectionID b a := by
  unfold NewPartitionConnectionID
  rcases lt_trichotomy a b with h | h | h
  · rw [if_pos h, if_neg (not_lt_of_lt h)]
  · subst h
    rfl
  · rw [if_neg (not_lt_of_lt h), if_pos h]

/-- C4: for every pair of partition IDs and every topology state, the
partition-connection lookup is commutative — constructing the
partition-connection key from the two IDs in either order yields the same map
key, and hence the connection obtained for `(x, y)` equals the connection
obtained for `(y, x)`. -/
theorem partition_connection_lookup_comm (t : PartitionTopology)
    (x y : PartitionID) :
    NewPartitionConnectionID x y = NewPartitionConnectionID y x ∧
    t.getPartitionConnection x y = t.getPartitionConnection y x := by
  refine ⟨NewPartitionConnectionID_comm x y, ?_⟩
  unfold PartitionTopology.getPartitionConnection
  rw [NewPartitionConnectionID_comm x y]

theorem alookup_mem {α β : Type} [DecidableEq α] {k : α} {v : β}
    {m : List (α × β)} (h : alookup k m = some v) : (k, v) ∈ m := by
  induction m with
  | nil => simp [alookup] at h
  | cons p t ih =>
    obtain ⟨a, b⟩ := p
    by_cases ha : a = k
    · subst ha
      simp only [alookup, if_pos rfl, reduceIte, Option.some.injEq] at h
      subst h
      exact List.mem_cons_self _ _
    · simp only [alookup, if_neg ha] at h
      exact List.mem_cons_of_mem _ (ih h)

theorem alookup_filter_none {α β : Type} [DecidableEq α] (k : α)
    (f : α × β → Bool) (m : List (α × β)) (h : ∀ v : β, f (k, v) = false) :
    alookup k (m.filter f) = none := by
  induction m with
  | nil => rfl
  | cons p t ih =>
    obtain ⟨a, b⟩ := p
    by_cases hf : f (a, b)
    · rw [List.filter_cons_of_pos hf]
      have ha : a ≠ k := by
        intro hc
        rw [hc] at hf
        rw [h b] at hf
        exact Bool.false_ne_true hf
      simp only [alookup, if_neg ha]
      exact ih
    · rw [List.filter_cons_of_neg hf]
      exact ih

/-- C8: the claim says every service whose Docker resources are successfully
removed (and every matching resourceless registration that is deregistered)
appears in the returned ok set of `DestroyUserServices`.  Evaluating the
embedding at a concrete enclave with one running service shows the call
removes the container, deletes the registration and releases its IP, raises
no per-GUID error — and still returns an empty ok set, because the
`successfulGuids` map in the source is never populated. -/
theorem destroyUserServices_ok_set_always_empty :
    (destroyProbeBackend.DestroyUserServices matchAllFilters).1.1 = [] ∧
    (destroyProbeBackend.DestroyUserServices matchAllFilters).1.2.1 = [] ∧
    (destroyProbeBackend.DestroyUserServices matchAllFilters).1.2.2 = none ∧
    (destroyProbeBackend.DestroyUserServices matchAllFilters).2.serviceRegistrations = [] ∧
    (destroyProbeBackend.DestroyUserServices matchAllFilters).2.containers = [] ∧
    (destroyProbeBackend.DestroyUserServices matchAllFilters).2.freeIps = [7] := by
  decide

/-- Helper: an error result of the legacy register path leaves the network
state — allocator pool, registration table and topology — exactly as it was
before the call. -/
theorem registerService_error_restores {net : ServiceNetworkImpl}
    {serviceId : ServiceID} {partitionId : PartitionID}
    {dirCreationFails : Bool} {e : KErr} {s : ServiceNetworkImpl}
    (hcall : net.RegisterService serviceId partitionId dirCreationFails =
      (.error e, s)) : s = net := by
  unfold ServiceNetworkImpl.RegisterService at hcall
  split_ifs at hcall with h1 h2 h3 h4 h5
  · exact (congrArg Prod.snd hcall).symm
  · exact (congrArg Prod.snd hcall).symm
  · exact (congrArg Prod.snd hcall).symm
  · exact (congrArg Prod.snd hcall).symm
  · exact (congrArg Prod.snd hcall).symm
  · rcases hf : net.freeIps with _ | ⟨ipAddr, rest⟩
    · rw [hf] at hcall
      dsimp only at hcall
      exact (congrArg Prod.snd hcall).symm
    · rw [hf] at hcall
      dsimp only at hcall
      rcases ha : net.topology.addService serviceId (defaultIfEmpty partitionId)
        with e' | t'
      · rw [ha] at hcall
        injection hcall with h₁ h₂
        rw [← h₂]
        have hnone : alookup serviceId net.serviceRegistrationInfo = none :=
          Option.not_isSome_iff_eq_none.mp h3
        simp only [aerase_ainsert]
        rw [aerase_of_alookup_none serviceId _ hnone, ← hf]
      · rw [ha] at hcall
        injection hcall with h₁ h₂
        simp at h₁

/-- Helper: a successful legacy register records the service id with its
allocated IP in the registration table, and the IP came off the head of the
free pool. -/
theorem registerService_ok_shape {net : ServiceNetworkImpl}
    {serviceId : ServiceID} {partitionId : PartitionID}
    {dirCreationFails : Bool} {ip : IP} {s : ServiceNetworkImpl}
    (hcall : net.RegisterService serviceId partitionId dirCreationFails =
      (.ok ip, s)) :
    alookup serviceId s.serviceRegistrationInfo = some ip ∧
      ip :: s.freeIps = net.freeIps := by
  unfold ServiceNetworkImpl.RegisterService at hcall
  split_ifs at hcall with h1 h2 h3 h4 h5
  · exact absurd (congrArg Prod.fst hcall) (by simp)
  · exact absurd (congrArg Prod.fst hcall) (by simp)
  · exact absurd (congrArg Prod.fst hcall) (by simp)
  · exact absurd (congrArg Prod.fst hcall) (by simp)
  · exact absurd (congrArg Prod.fst hcall) (by simp)
  · rcases hf : net.freeIps with _ | ⟨ipAddr, rest⟩
    · rw [hf] at hcall
      dsimp only at hcall
      exact absurd (congrArg Prod.fst hcall) (by simp)
    · rw [hf] at hcall
      dsimp only at hcall
      rcases ha : net.topology.addService serviceId (defaultIfEmpty partitionId)
        with e' | t'
      · rw [ha] at hcall
        injection hcall with h₁ h₂
        simp at h₁
      · rw [ha] at hcall
        injection hcall with h₁ h₂
        injection h₁ with h₁
        rw [← h₂, ← h₁]
        exact ⟨alookup_ainsert serviceId ipAddr net.serviceRegistrationInfo,
          rfl⟩

/-- C9: for every register call that fails at any step after some steps
succeeded, all prior steps are undone in reverse order — the allocated IP is
released back to the tracker, the entry is deleted from the registration
table, and the service stays out of the topology — so a failed register
leaves the allocator, registration table and topology exactly as they were
before the call, while a successful register returns the registration: the
service id is recorded with the IP that was taken from the free pool.  The
same holds for the Docker backend's `RegisterUserService`: an error leaves
the backend untouched, and a success records the registration under its GUID
with the IP taken from the free pool. -/
theorem register_failure_rollback
    (net : ServiceNetworkImpl) (serviceId : ServiceID)
    (partitionId : PartitionID) (dirCreationFails : Bool)
    (b : DockerKurtosisBackend) (sid : ServiceID) (now : Nat) :
    (∀ (e : KErr) (s : ServiceNetworkImpl),
      net.RegisterService serviceId partitionId dirCreationFails =
        (.error e, s) → s = net) ∧
    (∀ (ip : IP) (s : ServiceNetworkImpl),
      net.RegisterService serviceId partitionId dirCreationFails =
        (.ok ip, s) →
        alookup serviceId s.serviceRegistrationInfo = some ip ∧
          ip :: s.freeIps = net.freeIps) ∧
    (∀ (e : KErr) (b' : DockerKurtosisBackend),
      b.RegisterUserService sid now = (.error e, b') → b' = b) ∧
    (∀ (reg : ServiceRegistration) (b' : DockerKurtosisBackend),
      b.RegisterUserService sid now = (.ok reg, b') →
        alookup reg.guid b'.serviceRegistrations = some reg ∧
          reg.privateIP :: b'.freeIps = b.freeIps) := by
  refine ⟨fun e s h => registerService_error_restores h,
    fun ip s h => registerService_ok_shape h, ?_, ?_⟩
  · intro e b' h
    unfold DockerKurtosisBackend.RegisterUserService at h
    rcases hf : b.freeIps with _ | ⟨ipAddr, rest⟩
    · rw [hf] at h
      dsimp only at h
      exact (congrArg Prod.snd h).symm
    · rw [hf] at h
      dsimp only at h
      injection h with h₁ h₂
      simp at h₁
  · intro reg b' h
    unfold DockerKurtosisBackend.RegisterUserService at h
    rcases hf : b.freeIps with _ | ⟨ipAddr, rest⟩
    · rw [hf] at h
      dsimp only at h
      injection h with h₁ h₂
      simp at h₁
    · rw [hf] at h
      dsimp only at h
      injection h with h₁ h₂
      injection h₁ with h₁
      rw [← h₂, ← h₁]
      exact ⟨alookup_ainsert _ _ b.serviceRegistrations, rfl⟩

/-- Witness for C9: at concrete inputs, the rollback branch (topology add
fails after the IP was taken and the table entry inserted) restores the
network exactly, the success branch records the registration, and both
backend register outcomes behave as stated. -/
theorem register_failure_rollback_witness :
    (registerRollbackProbe.RegisterService "ghost" "default" false).2 =
      registerRollbackProbe ∧
    (alookup "fresh"
        (registerSuccessProbe.RegisterService "fresh" "" false).2.serviceRegistrationInfo =
      some 5 ∧
      5 :: (registerSuccessProbe.RegisterService "fresh" "" false).2.freeIps =
        registerSuccessProbe.freeIps) ∧
    ((⟨[], [], []⟩ : DockerKurtosisBackend).RegisterUserService "svc" 0).2 =
      (⟨[], [], []⟩ : DockerKurtosisBackend) ∧
    (alookup "svc-0"
        ((⟨[9], [], []⟩ : DockerKurtosisBackend).RegisterUserService "svc" 0).2.serviceRegistrations =
      some ⟨"svc", "svc-0", 9⟩ ∧
      (9 : IP) ::
          ((⟨[9], [], []⟩ : DockerKurtosisBackend).RegisterUserService "svc" 0).2.freeIps =
        (⟨[9], [], []⟩ : DockerKurtosisBackend).freeIps) := by
  refine ⟨?_, ?_, ?_, ?_⟩
  · exact (register_failure_rollback registerRollbackProbe "ghost" "default"
      false ⟨[], [], []⟩ "svc" 0).1 .serviceAlreadyPlaced _ (by decide)
  · exact (register_failure_rollback registerSuccessProbe "fresh" "" false
      ⟨[], [], []⟩ "svc" 0).2.1 5 _ (by decide)
  · exact (register_failure_rollback registerRollbackProbe "ghost" "default"
      false ⟨[], [], []⟩ "svc" 0).2.2.1 .ipExhausted _ (by decide)
  · exact (register_failure_rollback registerRollbackProbe "ghost" "default"
      false ⟨[9], [], []⟩ "svc" 0).2.2.2 ⟨"svc", "svc-0", 9⟩ _ (by decide)

/-- C5 counterexample: the claim states that after every successful
`RemoveService` the removed service's private IP remains held.  On the legacy
path (`ServiceNetworkImpl.removeServiceWithoutMutex`) a successful remove
releases the IP back to the free pool immediately: here the call succeeds
and IP 7, previously held, is back in the allocator's free pool. -/
theorem removeService_legacy_releases_ip :
    (legacyRemoveProbe.RemoveService "svc").1 = .ok () ∧
    7 ∈ (legacyRemoveProbe.RemoveService "svc").2.freeIps ∧
    alookup "svc"
       (legacyRemoveProbe.RemoveService "svc").2.serviceRegistrationInfo =
      none := by
  refine ⟨rfl, ?_, rfl⟩
  decide

theorem alookup_aerase_self {α β : Type} [DecidableEq α] (k : α)
    (m : List (α × β)) : alookup k (aerase k m) = none := by
  induction m with
  | nil => rfl
  | cons p t ih =>
    obtain ⟨a, b⟩ := p
    by_cases ha : a = k
    · simp only [aerase, if_pos ha]
      exact ih
    · simp only [aerase, if_neg ha, alookup, if_neg ha]
      exact ih

theorem alookup_eq_none_of_keys {α β : Type} [DecidableEq α] (k : α)
    (m : List (α × β)) (h : ∀ p ∈ m, p.1 ≠ k) : alookup k m = none := by
  induction m with
  | nil => rfl
  | cons p t ih =>
    obtain ⟨a, b⟩ := p
    simp only [alookup, if_neg (h (a, b) (List.mem_cons_self _ _))]
    exact ih (fun q hq => h q (List.mem_cons_of_mem _ hq))

theorem alookup_map_pair {α β : Type} [DecidableEq α] (k : α)
    (h : α × β → β) (m : List (α × β)) (v : β) (hv : alookup k m = some v) :
    alookup k (m.map (fun p => (p.1, h p))) = some (h (k, v)) := by
  induction m with
  | nil => simp [alookup] at hv
  | cons p t ih =>
    obtain ⟨a, b⟩ := p
    by_cases ha : a = k
    · subst ha
      simp only [alookup, if_pos rfl, reduceIte, Option.some.injEq] at hv
      subst hv
      simp [alookup]
    · simp only [alookup, if_neg ha] at hv
      simp only [List.map_cons, alookup, if_neg ha]
      exact ih hv

theorem alookup_filter_any_key {β : Type} (k : ServiceGUID)
    (keyed : List (ServiceGUID × β)) (m : List (ServiceGUID × β))
    (h : ∃ v : β, (k, v) ∈ keyed) :
    alookup k (m.filter (fun p => !(keyed.any (fun q => q.1 == p.1)))) =
      none := by
  refine alookup_filter_none k _ m ?_
  intro v
  obtain ⟨w, hw⟩ := h
  have hany : keyed.any (fun q => q.1 == k) = true :=
    List.any_eq_true.mpr ⟨(k, w), hw, by simp⟩
  simp [hany]

theorem removeService_not_mem_services (t : PartitionTopology)
    (sid : ServiceID) : sid ∉ (t.removeService sid).services := by
  intro hmem
  simp only [PartitionTopology.services, PartitionTopology.removeService,
    List.map_map, List.mem_flatten, List.mem_map, Function.comp] at hmem
  obtain ⟨l, ⟨p, hp, hl⟩, hin⟩ := hmem
  rw [← hl] at hin
  simp at hin

/-- C10: the Docker backend's batch operations `RegisterUserServices` and
`StartUserServices` unconditionally return an error (unimplemented stubs)
for every input and leave the backend untouched, so the service network's
batch register path and batch start path always fail when backed by this
implementation, regardless of the service IDs or configs supplied. -/
theorem docker_batch_register_and_start_always_fail
    (b : DockerKurtosisBackend) (serviceIds : List ServiceID)
    (services : List (ServiceGUID × ServiceID)) (net : ServiceNetwork)
    (configs : List ServiceID) (partitionID : PartitionID) :
    (b.RegisterUserServices serviceIds).1.2.2 =
      some KErr.unimplementedBatchRegister ∧
    (b.RegisterUserServices serviceIds).2 = b ∧
    (b.StartUserServices services).1.2.2 = some KErr.unimplementedBatchStart ∧
    (b.StartUserServices services).2 = b ∧
    (∃ e : KErr, (net.RegisterServices serviceIds partitionID).1 = .error e) ∧
    (net.StartServices configs dockerStartUserServicesOutcome).resultErr.isSome =
      true := by
  refine ⟨rfl, rfl, rfl, rfl, ?_, ?_⟩
  · unfold ServiceNetwork.RegisterServices
    split_ifs with h1 h2
    · exact ⟨KErr.duplicateService, rfl⟩
    · exact ⟨KErr.unknownPartition, rfl⟩
    · exact ⟨KErr.unimplementedBatchRegister, rfl⟩
  · unfold ServiceNetwork.StartServices
    split_ifs with h1 h2
    · rfl
    · dsimp only
      rcases htc : updateTrafficControlConfiguration
          (net.topology.packetLossByService.filter
            (fun r => !(configs.contains r.1)))
          net.registeredServiceInfo net.networkingSidecars with e | u
      · rfl
      · rfl
    · rfl

theorem contains_filter_ne (l : List ServiceID) (sid : ServiceID) :
    (l.filter (fun s => s ≠ sid)).contains sid = false := by
  induction l with
  | nil => rfl
  | cons a t ih =>
    by_cases ha : a = sid
    · rw [List.filter_cons_of_neg (by simp [ha])]
      exact ih
    · rw [List.filter_cons_of_pos (by simp [ha])]
      simp only [List.contains_cons, ih, Bool.or_false]
      exact beq_eq_false_iff_ne.mpr (fun hc => ha hc.symm)

/-- Helper: the full computation of a successful current-coordinator
`RemoveService` call, given that the service is registered and all its
containers are running. -/
theorem removeService_ok_eq (net : ServiceNetwork) (serviceId : ServiceID)
    (reg : ServiceRegistration)
    (hreg : alookup serviceId net.registeredServiceInfo = some reg)
    (hrun : ∀ c' : Container,
      (reg.guid, c') ∈ net.kurtosisBackend.containers →
        c'.status = ContainerStatus.running) :
    net.RemoveService serviceId =
      (.ok reg.guid,
       { isPartitioningEnabled := net.isPartitioningEnabled
         topology := net.topology.removeService serviceId
         networkingSidecars :=
           if net.isPartitioningEnabled &&
               net.networkingSidecars.contains serviceId then
             net.networkingSidecars.filter (fun s => s ≠ serviceId)
           else net.networkingSidecars
         registeredServiceInfo := aerase serviceId net.registeredServiceInfo
         kurtosisBackend :=
           { freeIps := net.kurtosisBackend.freeIps
             serviceRegistrations := net.kurtosisBackend.serviceRegistrations
             containers := net.kurtosisBackend.containers.map (fun p =>
               (p.1,
                if containerMatches ⟨[reg.guid], [], []⟩ p.1 p.2 &&
                    p.2.status == ContainerStatus.running then
                  { p.2 with status := ContainerStatus.stopped }
                else p.2)) } },
       [Ev.lock, Ev.unlock]) := by
  have hfailed : (net.kurtosisBackend.containers.filter
      (fun p => containerMatches ⟨[reg.guid], [], []⟩ p.1 p.2)).filter
        (fun p => p.2.status != ContainerStatus.running) = [] := by
    rw [List.filter_eq_nil_iff]
    intro p hp
    have hpmem := List.mem_filter.mp hp
    have hkey : p.1 = reg.guid := by
      have hc := hpmem.2
      simp only [containerMatches, List.isEmpty_nil, List.isEmpty_cons,
        Bool.false_or, Bool.true_or, Bool.and_true, Bool.and_eq_true,
        List.contains_cons, List.contains_nil, Bool.or_false] at hc
      exact eq_of_beq hc
    have hpeq : p = (reg.guid, p.2) := by
      rw [← hkey]
    have hrunp := hrun p.2 (by rw [← hpeq]; exact hpmem.1)
    simp [hrunp]
  unfold ServiceNetwork.RemoveService
  rw [hreg]
  dsimp only [DockerKurtosisBackend.StopUserServices]
  rw [hfailed]
  dsimp only [List.map_nil]
  by_cases hsc : net.isPartitioningEnabled &&
      net.networkingSidecars.contains serviceId
  · rw [if_pos hsc, if_pos hsc]
    simp [alookup]
  · rw [if_neg hsc, if_neg hsc]
    simp [alookup]

/-- C7: after every successful `RemoveService(id)` on the current
coordinator, the service is removed from the topology and from the
registration and sidecar tables, and its backend container is stopped
(killed) but not destroyed — it is still present with STOPPED status — so a
subsequent `GetUserServiceLogs` call filtered to that service still returns
a readable log stream for its GUID. -/
theorem removeService_keeps_logs (net : ServiceNetwork)
    (serviceId : ServiceID) (reg : ServiceRegistration) (c : Container)
    (hreg : alookup serviceId net.registeredServiceInfo = some reg)
    (hcont : alookup reg.guid net.kurtosisBackend.containers = some c)
    (hrun : ∀ c' : Container,
      (reg.guid, c') ∈ net.kurtosisBackend.containers →
        c'.status = ContainerStatus.running) :
    (net.RemoveService serviceId).1 = .ok reg.guid ∧
    alookup serviceId
        (net.RemoveService serviceId).2.1.registeredServiceInfo = none ∧
    serviceId ∉ (net.RemoveService serviceId).2.1.topology.services ∧
    (net.isPartitioningEnabled = true →
      (net.RemoveService serviceId).2.1.networkingSidecars.contains serviceId =
        false) ∧
    alookup reg.guid
        (net.RemoveService serviceId).2.1.kurtosisBackend.containers =
      some { c with status := ContainerStatus.stopped } ∧
    reg.guid ∈
      ((net.RemoveService serviceId).2.1.kurtosisBackend.GetUserServiceLogs
        ⟨[reg.guid], [], []⟩).1 := by
  rw [removeService_ok_eq net serviceId reg hreg hrun]
  have hcstat : c.status = ContainerStatus.running :=
    hrun c (alookup_mem hcont)
  have hcont' : alookup reg.guid
      (net.kurtosisBackend.containers.map (fun p =>
        (p.1,
         if containerMatches ⟨[reg.guid], [], []⟩ p.1 p.2 &&
             p.2.status == ContainerStatus.running then
           { p.2 with status := ContainerStatus.stopped }
         else p.2))) = some { c with status := ContainerStatus.stopped } := by
    rw [alookup_map_pair reg.guid _ net.kurtosisBackend.containers c hcont]
    simp [containerMatches, hcstat]
  refine ⟨rfl, alookup_aerase_self serviceId _,
    removeService_not_mem_services net.topology serviceId, ?_, hcont', ?_⟩
  · intro hp
    dsimp only
    rw [hp, Bool.true_and]
    by_cases hin : net.networkingSidecars.contains serviceId
    · rw [if_pos hin]
      exact contains_filter_ne net.networkingSidecars serviceId
    · rw [if_neg hin]
      exact Bool.eq_false_iff.mpr hin
  · dsimp only [DockerKurtosisBackend.GetUserServiceLogs]
    refine List.mem_map.mpr ⟨(reg.guid, { c with status := ContainerStatus.stopped }), ?_, rfl⟩
    refine List.mem_filter.mpr ⟨alookup_mem hcont', ?_⟩
    simp [containerMatches]

/-- C5 (amended): a successful `RemoveService` on the current coordinator
leaves the backend allocator's free pool unchanged and keeps the backend
registration — the removed service's private IP stays held; the IP is
released, and the registration destroyed, only by the separate destroy path
`DestroyUserServices`.  (The legacy `ServiceNetworkImpl` remove path instead
releases the IP immediately; see the counterexample.) -/
theorem removeService_ip_stays_held (net : ServiceNetwork)
    (serviceId : ServiceID) (b : DockerKurtosisBackend) (guid : ServiceGUID)
    (reg : ServiceRegistration) :
    (∀ (g : ServiceGUID) (net' : ServiceNetwork) (tr : List Ev),
      net.RemoveService serviceId = (.ok g, net', tr) →
        net'.kurtosisBackend.freeIps = net.kurtosisBackend.freeIps ∧
        net'.kurtosisBackend.serviceRegistrations =
          net.kurtosisBackend.serviceRegistrations) ∧
    (alookup guid b.serviceRegistrations = some reg → reg.guid = guid →
      (b.containers.filter
          (fun p => containerMatches ⟨[guid], [], []⟩ p.1 p.2)).length ≤
        (b.serviceRegistrations.filter
          (fun p => registrationMatches ⟨[guid], [], []⟩ p.2)).length →
      reg.privateIP ∈ (b.DestroyUserServices ⟨[guid], [], []⟩).2.freeIps ∧
      alookup guid
          (b.DestroyUserServices ⟨[guid], [], []⟩).2.serviceRegistrations =
        none) := by
  constructor
  · intro g net' tr hcall
    unfold ServiceNetwork.RemoveService at hcall
    split at hcall
    · injection hcall with h1 h2
      simp at h1
    · dsimp only [DockerKurtosisBackend.StopUserServices] at hcall
      split at hcall
      · injection hcall with h1 h2
        simp at h1
      · split at hcall
        · injection hcall with h1 h2
          injection h2 with h2a h2b
          rw [← h2a]
          exact ⟨rfl, rfl⟩
        · injection hcall with h1 h2
          injection h2 with h2a h2b
          rw [← h2a]
          exact ⟨rfl, rfl⟩
  · intro hEntry hGuid hLen
    unfold DockerKurtosisBackend.DestroyUserServices
    rw [if_neg (not_lt.mpr hLen)]
    dsimp only
    have hmem : (guid, reg) ∈ b.serviceRegistrations := alookup_mem hEntry
    have hmatch : (guid, reg) ∈ b.serviceRegistrations.filter
        (fun p => registrationMatches ⟨[guid], [], []⟩ p.2) :=
      List.mem_filter.mpr ⟨hmem, by simp [registrationMatches, hGuid]⟩
    have hdereg : (guid, reg) ∈
        (b.serviceRegistrations.filter
            (fun p => registrationMatches ⟨[guid], [], []⟩ p.2)).filter
          (fun p => (alookup p.1
            (b.containers.filter
              (fun q => containerMatches ⟨[guid], [], []⟩ q.1 q.2))).isNone) ++
        (b.serviceRegistrations.filter
            (fun p => registrationMatches ⟨[guid], [], []⟩ p.2)).filter
          (fun p => ((b.containers.filter
              (fun q => containerMatches ⟨[guid], [], []⟩ q.1 q.2)).map
                (fun q => q.1)).contains p.1) := by
      by_cases hres : (alookup guid
          (b.containers.filter
            (fun q => containerMatches ⟨[guid], [], []⟩ q.1 q.2))).isSome
      · refine List.mem_append_right _ (List.mem_filter.mpr ⟨hmatch, ?_⟩)
        rcases Option.isSome_iff_exists.mp hres with ⟨cv, hcv⟩
        have hcvmem : (guid, cv) ∈ b.containers.filter
            (fun q => containerMatches ⟨[guid], [], []⟩ q.1 q.2) :=
          alookup_mem hcv
        exact List.elem_eq_true_of_mem
          (List.mem_map.mpr ⟨(guid, cv), hcvmem, rfl⟩)
      · refine List.mem_append_left _ (List.mem_filter.mpr ⟨hmatch, ?_⟩)
        simp only [Option.isNone_iff_eq_none]
        exact Option.not_isSome_iff_eq_none.mp hres
    constructor
    · exact List.mem_append_left _ (List.mem_map.mpr ⟨(guid, reg), hdereg, rfl⟩)
    · exact alookup_filter_any_key guid _ _ ⟨reg, hdereg⟩

/-- Witness for C5 (amended): at the concrete network, the successful remove
leaves the backend free pool and registrations untouched, while the destroy
path releases IP 7 and deletes the registration. -/
theorem removeService_ip_stays_held_witness :
    ((removeProbeNet.RemoveService "svc").2.1.kurtosisBackend.freeIps =
        removeProbeNet.kurtosisBackend.freeIps ∧
      (removeProbeNet.RemoveService "svc").2.1.kurtosisBackend.serviceRegistrations =
        removeProbeNet.kurtosisBackend.serviceRegistrations) ∧
    ((7 : IP) ∈
        (destroyReleaseBackend.DestroyUserServices ⟨["svc-g"], [], []⟩).2.freeIps ∧
      alookup "svc-g"
          (destroyReleaseBackend.DestroyUserServices ⟨["svc-g"], [], []⟩).2.serviceRegistrations =
        none) := by
  constructor
  · exact (removeService_ip_stays_held removeProbeNet "svc"
      destroyReleaseBackend "svc-g" ⟨"svc", "svc-g", 7⟩).1 "svc-g"
      (removeProbeNet.RemoveService "svc").2.1
      (removeProbeNet.RemoveService "svc").2.2 (by decide)
  · exact (removeService_ip_stays_held removeProbeNet "svc"
      destroyReleaseBackend "svc-g" ⟨"svc", "svc-g", 7⟩).2 (by decide) (by decide)
      (by decide)

/-- Witness for C7: at the concrete network, the remove succeeds, the
service disappears from the registration table, topology and sidecar table,
the container is stopped but still present, and the log stream is still
retrievable for its GUID. -/
theorem removeService_keeps_logs_witness :
    (removeProbeNet.RemoveService "svc").1 = .ok "svc-g" ∧
    alookup "svc"
        (removeProbeNet.RemoveService "svc").2.1.registeredServiceInfo = none ∧
    "svc" ∉ (removeProbeNet.RemoveService "svc").2.1.topology.services ∧
    (removeProbeNet.isPartitioningEnabled = true →
      (removeProbeNet.RemoveService "svc").2.1.networkingSidecars.contains "svc" =
        false) ∧
    alookup "svc-g"
        (removeProbeNet.RemoveService "svc").2.1.kurtosisBackend.containers =
      some ⟨"svc", 7, ContainerStatus.stopped⟩ ∧
    "svc-g" ∈
      ((removeProbeNet.RemoveService "svc").2.1.kurtosisBackend.GetUserServiceLogs
        ⟨["svc-g"], [], []⟩).1 :=
  removeService_keeps_logs removeProbeNet "svc" ⟨"svc", "svc-g", 7⟩
    ⟨"svc", 7, ContainerStatus.running⟩ rfl rfl (by
      intro c' hc'
      have hp := List.mem_singleton.mp hc'
      have hc2 : c' = ⟨"svc", 7, ContainerStatus.running⟩ :=
        congrArg Prod.snd hp
      rw [hc2])

theorem mg_lock_unlock : MutexGuardedTrace [Ev.lock, Ev.unlock] :=
  ⟨[], rfl, by simp, by simp⟩

theorem ev_not_mem_sidecar_blocks (e : Ev)
    (l : List (ServiceGUID × ServiceRegistration))
    (h1 : ∀ x, e ≠ Ev.addSidecar x) (h2 : ∀ x, e ≠ Ev.initTC x) :
    e ∉ (l.map (fun p => [Ev.addSidecar p.2.id, Ev.initTC p.2.id])).flatten := by
  intro hmem
  rw [List.mem_flatten] at hmem
  obtain ⟨blk, hblk, hin⟩ := hmem
  obtain ⟨p, hp, hb⟩ := List.mem_map.mp hblk
  rw [← hb] at hin
  rcases List.mem_cons.mp hin with h | hin2
  · exact h1 _ h
  · rcases List.mem_cons.mp hin2 with h | h
    · exact h2 _ h
    · simp at h

/-- C6 (amended): every externally visible mutating or querying operation of
the current `ServiceNetwork` except `GetServiceIDs` and
`CopyFilesFromService` acquires the enclave-wide mutex on entry and releases
it on all exit paths — its event trace begins with the acquisition, ends
with the release and holds no other mutex event — while `GetServiceIDs` and
`CopyFilesFromService` never touch the mutex: their traces hold no mutex
event at all (their traces are empty). -/
theorem mutex_discipline (net : ServiceNetwork) :
    (∀ (nps : List (PartitionID × List ServiceID))
      (no : List (PartitionConnectionID × PartitionConnection))
      (nd : PartitionConnection),
      MutexGuardedTrace (net.Repartition nps no nd).2.2) ∧
    (∀ (ids : List ServiceID) (pid : PartitionID),
      MutexGuardedTrace (net.RegisterServices ids pid).2.2) ∧
    (∀ (cfgs : List ServiceID) (outcome : StartOutcome),
      MutexGuardedTrace (net.StartServices cfgs outcome).trace) ∧
    (∀ sid : ServiceID, MutexGuardedTrace (net.RemoveService sid).2.2) ∧
    (∀ sid : ServiceID, MutexGuardedTrace (net.PauseService sid).2.2) ∧
    (∀ sid : ServiceID, MutexGuardedTrace (net.UnpauseService sid).2.2) ∧
    (∀ (sid : ServiceID) (cmd : List String),
      MutexGuardedTrace (net.ExecCommand sid cmd).2.2) ∧
    (∀ sid : ServiceID, MutexGuardedTrace (net.GetService sid).2.2) ∧
    net.GetServiceIDs.2 = [] ∧
    (∀ (sid : ServiceID) (path : String),
      (net.CopyFilesFromService sid path).2.2 = []) := by
  refine ⟨?_, ?_, ?_, ?_, ?_, ?_, ?_, ?_, rfl, ?_⟩
  · intro nps no nd
    unfold ServiceNetwork.Repartition
    split_ifs
    · exact mg_lock_unlock
    · split
      · exact mg_lock_unlock
      · dsimp only
        split
        · exact mg_lock_unlock
        · exact ⟨[Ev.applyTC _], rfl, by simp, by simp⟩
  · intro ids pid
    unfold ServiceNetwork.RegisterServices
    split_ifs
    · exact mg_lock_unlock
    · exact mg_lock_unlock
    · exact mg_lock_unlock
  · intro cfgs outcome
    unfold ServiceNetwork.StartServices
    split_ifs
    · exact mg_lock_unlock
    · dsimp only
      split
      · exact mg_lock_unlock
      · split
        · refine ⟨[Ev.applyTC
              ((net.topology.packetLossByService.filter
                (fun r => !(cfgs.contains r.1))).map (fun r => r.1)),
              Ev.startContainers] ++
            (outcome.successes.map (fun p =>
              [Ev.addSidecar p.2.id, Ev.initTC p.2.id])).flatten, ?_, ?_, ?_⟩
          · simp
          · intro h
            rcases List.mem_append.mp h with h | h
            · simp at h
            · exact ev_not_mem_sidecar_blocks Ev.lock _
                (by intro x; simp) (by intro x; simp) h
          · intro h
            rcases List.mem_append.mp h with h | h
            · simp at h
            · exact ev_not_mem_sidecar_blocks Ev.unlock _
                (by intro x; simp) (by intro x; simp) h
        · refine ⟨[Ev.applyTC
              ((net.topology.packetLossByService.filter
                (fun r => !(cfgs.contains r.1))).map (fun r => r.1)),
              Ev.startContainers] ++
            ((outcome.successes.map (fun p =>
              [Ev.addSidecar p.2.id, Ev.initTC p.2.id])).flatten ++
              [Ev.applyTC (outcome.successes.map (fun p => p.2.id))]),
            ?_, ?_, ?_⟩
          · simp
          · intro h
            rcases List.mem_append.mp h with h | h
            · simp at h
            · rcases List.mem_append.mp h with h | h
              · exact ev_not_mem_sidecar_blocks Ev.lock _
                  (by intro x; simp) (by intro x; simp) h
              · simp at h
          · intro h
            rcases List.mem_append.mp h with h | h
            · simp at h
            · rcases List.mem_append.mp h with h | h
              · exact ev_not_mem_sidecar_blocks Ev.unlock _
                  (by intro x; simp) (by intro x; simp) h
              · simp at h
    · exact ⟨[Ev.startContainers], rfl, by simp, by simp⟩
  · intro sid
    unfold ServiceNetwork.RemoveService
    split
    · exact mg_lock_unlock
    · dsimp only [DockerKurtosisBackend.StopUserServices]
      split_ifs
      · exact mg_lock_unlock
      · exact mg_lock_unlock
      · exact mg_lock_unlock
  · intro sid
    unfold ServiceNetwork.PauseService
    split
    · exact mg_lock_unlock
    · split_ifs
      · exact mg_lock_unlock
      · exact mg_lock_unlock
  · intro sid
    unfold ServiceNetwork.UnpauseService
    split
    · exact mg_lock_unlock
    · split_ifs
      · exact mg_lock_unlock
      · exact mg_lock_unlock
  · intro sid cmd
    unfold ServiceNetwork.ExecCommand
    split
    · exact mg_lock_unlock
    · split
      · exact mg_lock_unlock
      · exact mg_lock_unlock
  · intro sid
    unfold ServiceNetwork.GetService
    split
    · exact mg_lock_unlock
    · split
      · exact mg_lock_unlock
      · exact mg_lock_unlock
  · intro sid path
    unfold ServiceNetwork.CopyFilesFromService
    split
    · rfl
    · split
      · rfl
      · rfl

/-- C6 counterexample: the claim states that every externally visible
operation — `CopyFilesFromService` and `GetServiceIDs` included — acquires
the enclave-wide mutex on entry.  At a concrete network, both operations run
without a single mutex acquisition: their event traces hold no lock event. -/
theorem getServiceIDs_copyFiles_no_lock :
    Ev.lock ∉ removeProbeNet.GetServiceIDs.2 ∧
    Ev.lock ∉ (removeProbeNet.CopyFilesFromService "svc" "/data").2.2 := by
  decide

/-- Helper: the full computation of a batch start in which every batch id
is registered, partitioning is enabled, and both traffic-control
applications succeed. -/
theorem startServices_run_eq (net : ServiceNetwork)
    (serviceConfigs : List ServiceID) (outcome : StartOutcome)
    (hall : serviceConfigs.all
      (fun id => (alookup id net.registeredServiceInfo).isSome) = true)
    (hp : net.isPartitioningEnabled = true)
    (htc1 : updateTrafficControlConfiguration
      (net.topology.packetLossByService.filter
        (fun r => !(serviceConfigs.contains r.1)))
      net.registeredServiceInfo net.networkingSidecars = .ok ())
    (htc2 : updateTrafficControlConfiguration
      ((outcome.successes.map (fun p => p.2.id)).map
        (fun idv => (idv, (alookup idv net.topology.packetLossByService).getD [])))
      net.registeredServiceInfo
      ((outcome.successes.map (fun p => p.2.id)) ++ net.networkingSidecars) =
      .ok ()) :
    net.StartServices serviceConfigs outcome =
      ⟨outcome.successes, outcome.failures, outcome.err,
       { net with
         networkingSidecars :=
           (outcome.successes.map (fun p => p.2.id)) ++
             net.networkingSidecars },
       [Ev.lock,
        Ev.applyTC ((net.topology.packetLossByService.filter
          (fun r => !(serviceConfigs.contains r.1))).map (fun r => r.1)),
        Ev.startContainers] ++
         (outcome.successes.map (fun p =>
           [Ev.addSidecar p.2.id, Ev.initTC p.2.id])).flatten ++
         [Ev.applyTC (outcome.successes.map (fun p => p.2.id)), Ev.unlock]⟩ := by
  unfold ServiceNetwork.StartServices
  rw [hall, hp]
  simp only [Bool.not_true, Bool.false_eq_true, if_false, if_true]
  rw [htc1]
  dsimp only
  rw [htc2]

/-- C3: within every batch start executed with partitioning enabled (every
batch id registered, both traffic-control pushes succeeding, the backend
reporting no error and no per-service failure), the packet-loss matrix
computed with the new service ids excluded is applied through the sidecars
of the already-registered services before any container of the batch
starts; and after the containers start, every started service has its
sidecar attached and initialized and its own matrix row applied — all
before the readiness phase begins. -/
theorem preblocking_before_start_and_shaping_before_readiness
    (net : ServiceNetwork) (serviceConfigs : List ServiceID)
    (outcome : StartOutcome)
    (hall : serviceConfigs.all
      (fun id => (alookup id net.registeredServiceInfo).isSome) = true)
    (hp : net.isPartitioningEnabled = true)
    (htc1 : updateTrafficControlConfiguration
      (net.topology.packetLossByService.filter
        (fun r => !(serviceConfigs.contains r.1)))
      net.registeredServiceInfo net.networkingSidecars = .ok ())
    (htc2 : updateTrafficControlConfiguration
      ((outcome.successes.map (fun p => p.2.id)).map
        (fun idv => (idv, (alookup idv net.topology.packetLossByService).getD [])))
      net.registeredServiceInfo
      ((outcome.successes.map (fun p => p.2.id)) ++ net.networkingSidecars) =
      .ok ())
    (herr : outcome.err = none) (hfailed : outcome.failures = []) :
    (net.StartServices serviceConfigs outcome).successfulServices =
      outcome.successes ∧
    ∃ pre mid : List Ev,
      addServicesTrace net serviceConfigs outcome =
        pre ++ Ev.startContainers :: mid ++
          addServicesReadinessTrace outcome.successes ∧
      Ev.applyTC ((net.topology.packetLossByService.filter
          (fun r => !(serviceConfigs.contains r.1))).map (fun r => r.1)) ∈
        pre ∧
      (∀ p ∈ outcome.successes,
        Ev.addSidecar p.2.id ∈ mid ∧ Ev.initTC p.2.id ∈ mid) ∧
      Ev.applyTC (outcome.successes.map (fun p => p.2.id)) ∈ mid := by
  have heq := startServices_run_eq net serviceConfigs outcome hall hp htc1 htc2
  constructor
  · rw [heq]
  · unfold addServicesTrace
    rw [heq]
    dsimp only
    rw [herr, hfailed]
    simp only [Option.isSome_none, List.isEmpty_nil, Bool.not_true,
      Bool.or_false, Bool.false_eq_true, if_false]
    refine ⟨[Ev.lock, Ev.applyTC
        ((net.topology.packetLossByService.filter
          (fun r => !(serviceConfigs.contains r.1))).map (fun r => r.1))],
      (outcome.successes.map (fun p =>
        [Ev.addSidecar p.2.id, Ev.initTC p.2.id])).flatten ++
        [Ev.applyTC (outcome.successes.map (fun p => p.2.id)), Ev.unlock],
      ?_, ?_, ?_, ?_⟩
    · simp
    · simp
    · intro p hpmem
      constructor
      · refine List.mem_append_left _ (List.mem_flatten.mpr
          ⟨[Ev.addSidecar p.2.id, Ev.initTC p.2.id],
           List.mem_map.mpr ⟨p, hpmem, rfl⟩, ?_⟩)
        simp
      · refine List.mem_append_left _ (List.mem_flatten.mpr
          ⟨[Ev.addSidecar p.2.id, Ev.initTC p.2.id],
           List.mem_map.mpr ⟨p, hpmem, rfl⟩, ?_⟩)
        simp
    · simp

/-- Witness for C3: at the concrete network, the hypotheses hold and the
ordered trace exists. -/
theorem preblocking_order_witness :
    (["b"].all
      (fun id => (alookup id preblockProbeNet.registeredServiceInfo).isSome) =
      true) ∧
    ((preblockProbeNet.StartServices ["b"] preblockOutcome).successfulServices =
        preblockOutcome.successes ∧
      ∃ pre mid : List Ev,
        addServicesTrace preblockProbeNet ["b"] preblockOutcome =
          pre ++ Ev.startContainers :: mid ++
            addServicesReadinessTrace preblockOutcome.successes ∧
        Ev.applyTC ((preblockProbeNet.topology.packetLossByService.filter
            (fun r => !(List.contains ["b"] r.1))).map (fun r => r.1)) ∈ pre ∧
        (∀ p ∈ preblockOutcome.successes,
          Ev.addSidecar p.2.id ∈ mid ∧ Ev.initTC p.2.id ∈ mid) ∧
        Ev.applyTC (preblockOutcome.successes.map (fun p => p.2.id)) ∈ mid) :=
  ⟨by decide,
   preblocking_before_start_and_shaping_before_readiness preblockProbeNet
     ["b"] preblockOutcome (by decide) rfl (by decide) (by decide) rfl rfl⟩

/-- C2: the claim states that a failed readiness check triggers the
all-or-nothing rollback — every service started in the batch is removed
before the error is returned.  Evaluating the embedded `Execute` at a batch
whose single started service fails its readiness check shows the call
returns an error WITHOUT invoking `RemoveService` on any started service:
the rollback `defer` in the source is registered after the readiness check's
early return, so it cannot run there. -/
theorem addServices_readiness_failure_skips_rollback :
    addServicesExecute ["svc"] [] false true = ⟨true, []⟩ ∧
    (addServicesExecute ["svc"] [] false true).rolledBackServices = [] := by
  exact ⟨rfl, rfl⟩

/-- C1: for every batch start in which at least one service fails to start,
every successfully started service of the batch is destroyed and the
aggregated per-id failure map is returned with an empty started map, so
that after the call the registration table and the set of running services
are exactly what they were before the call — no partial network is
observable. -/
theorem startBatch_all_or_nothing (s : BatchState)
    (configs : List (ServiceID × Bool))
    (hfreshReg : ∀ p ∈ s.registrations, ∀ c ∈ configs, p.1 ≠ c.1)
    (hfreshRun : ∀ g ∈ s.running, ∀ c ∈ configs, batchGuid c.1 ≠ g)
    (hfail : configs.any (fun c => !c.2) = true) :
    (startBatch s configs).1.1 = [] ∧
    (startBatch s configs).1.2 =
      (configs.filter (fun c => !c.2)).map (fun c => (c.1, KErr.startFailed)) ∧
    (startBatch s configs).2 = s := by
  obtain ⟨cbad, hcbad, hbad⟩ := List.any_eq_true.mp hfail
  have hne : (configs.filter (fun c => !c.2)).map
      (fun c => (c.1, KErr.startFailed)) ≠ [] := by
    intro hnil
    have : cbad ∈ configs.filter (fun c => !c.2) :=
      List.mem_filter.mpr ⟨hcbad, hbad⟩
    have : (cbad.1, KErr.startFailed) ∈
        (configs.filter (fun c => !c.2)).map (fun c => (c.1, KErr.startFailed)) :=
      List.mem_map.mpr ⟨cbad, this, rfl⟩
    rw [hnil] at this
    simp at this
  unfold startBatch
  dsimp only
  rw [if_neg (by
    intro hempty
    exact hne (List.isEmpty_iff.mp hempty))]
  refine ⟨rfl, rfl, ?_⟩
  have hregs : (s.registrations ++ configs.map (fun c => (c.1, batchGuid c.1))).filter
      (fun p => !(configs.any (fun c => c.1 == p.1))) = s.registrations := by
    rw [List.filter_append]
    have h1 : s.registrations.filter
        (fun p => !(configs.any (fun c => c.1 == p.1))) = s.registrations := by
      rw [List.filter_eq_self]
      intro p hp
      simp only [Bool.not_eq_true', List.any_eq_false]
      intro c hc h
      exact hfreshReg p hp c hc (eq_of_beq h).symm
    have h2 : (configs.map (fun c => (c.1, batchGuid c.1))).filter
        (fun p => !(configs.any (fun c => c.1 == p.1))) = [] := by
      rw [List.filter_eq_nil_iff]
      intro p hp
      obtain ⟨c, hc, hcp⟩ := List.mem_map.mp hp
      simp only [Bool.not_eq_true', Bool.not_eq_false]
      refine List.any_eq_true.mpr ⟨c, hc, ?_⟩
      rw [← hcp]
      simp
    rw [h1, h2, List.append_nil]
  have hrun : (s.running ++ ((configs.filter (fun c => c.2)).map
      (fun c => (c.1, batchGuid c.1))).map (fun p => p.2)).filter
        (fun g => !(configs.any (fun c => batchGuid c.1 == g))) = s.running := by
    rw [List.filter_append]
    have h1 : s.running.filter
        (fun g => !(configs.any (fun c => batchGuid c.1 == g))) = s.running := by
      rw [List.filter_eq_self]
      intro g hg
      simp only [Bool.not_eq_true', List.any_eq_false]
      intro c hc h
      exact hfreshRun g hg c hc (eq_of_beq h)
    have h2 : (((configs.filter (fun c => c.2)).map
        (fun c => (c.1, batchGuid c.1))).map (fun p => p.2)).filter
          (fun g => !(configs.any (fun c => batchGuid c.1 == g))) = [] := by
      rw [List.filter_eq_nil_iff]
      intro g hg
      obtain ⟨p, hp, hpg⟩ := List.mem_map.mp hg
      obtain ⟨c, hc, hcp⟩ := List.mem_map.mp hp
      simp only [Bool.not_eq_true', Bool.not_eq_false]
      refine List.any_eq_true.mpr ⟨c, List.mem_of_mem_filter hc, ?_⟩
      rw [← hpg, ← hcp]
      simp
    rw [h1, h2, List.append_nil]
  rw [hregs, hrun]

/-- Witness for C1: at the concrete state and batch, the hypotheses hold,
the started map comes back empty, the failure map names y, and the state is
exactly restored. -/
theorem startBatch_all_or_nothing_witness :
    (∀ p ∈ batchProbeState.registrations,
      ∀ c ∈ [("x", true), ("y", false)], p.1 ≠ c.1) ∧
    (startBatch batchProbeState [("x", true), ("y", false)]).1.1 = [] ∧
    (startBatch batchProbeState [("x", true), ("y", false)]).1.2 =
      ([("x", true), ("y", false)].filter (fun c => !c.2)).map
        (fun c => (c.1, KErr.startFailed)) ∧
    (startBatch batchProbeState [("x", true), ("y", false)]).2 =
      batchProbeState :=
  ⟨by decide,
   startBatch_all_or_nothing batchProbeState [("x", true), ("y", false)]
     (by decide) (by decide) (by decide)⟩

end Kurtosis

